import Mathlib

/-
Verification of the scriber Python SDK (src/scriber/) against its
natural-language specification.

Shallow embedding conventions:
- Python dicts whose insertion order matters (the JSON envelope, events)
  are association lists `List (String × Json)`.
- `json.dumps` / `json.loads` are the Python standard library, outside this
  repository; they are each other's inverse by that library's contract, so a
  request body is modelled at the level of the JSON document it serializes
  (field `Request.post_data` below holds the document).
- Python exceptions become the `Except` monad.  A raised exception is
  `Except.error`; exception classes from src/scriber/error.py are the
  inductive `ScriberExc`, and `PyExc` additionally allows a raw (non-scriber)
  Python exception so that "the raw exception reaches the caller" is
  expressible.
- The network and the underlying HTTP libraries are outside the repository;
  each transport is modelled as a function of the outcome of its one
  underlying library call, with the outcome type enumerating the behaviours
  the library can exhibit at that call site (success, or the exception
  classes the source handles).
- The static English text of diagnostic messages is represented by the
  constructors of `ConnErrMsg` (one constructor per distinct message branch
  in the source); each constructor carries the dynamic parts interpolated
  into the message.  No claim inspects the English text of these messages.
-/

/-- A JSON document, as built by api.py and passed to `json.dumps`. -/
inductive Json where
  | str : String → Json
  | num : Int → Json
  | bool : Bool → Json
  | null : Json
  | arr : List Json → Json
  | obj : List (String × Json) → Json

/-- src/scriber/error.py lines 2-18: fields set by `ScriberError.__init__`.
All default to `None`; `http_body`, when not `None`, is text (the utf-8
decode branch of lines 8-13 applies to byte bodies and is the identity on
text, so bodies are modelled as `String`). -/
structure ScriberErrorData where
  message : Option String
  http_body : Option String
  http_status : Option Int
  json_body : Option Json

/-- The static diagnostic-message branches of the transport error handlers in
src/scriber/http_client.py, one constructor per distinct message template,
carrying the dynamic values interpolated into the template. -/
inductive ConnErrMsg where
  | requestsRequestException (excName detail : String)
  | requestsOther (excName detail : String)
  | urlfetchInvalidURL (url detail : String)
  | urlfetchDownload (detail : String)
  | urlfetchResponseTooLarge (detail : String)
  | urlfetchOther (detail : String)
  | pycurlCouldNotConnect (detail : String)
  | pycurlSslFailed (detail : String)
  | pycurlOther (detail : String)
  | urllib2Unexpected (detail : String)

/-- The exception classes of src/scriber/error.py that the event-submission
path can raise.  `APIConnectionError` is constructed by the transports with a
message only (http_* fields left at their `None` defaults), so only its
message is recorded. -/
inductive ScriberExc where
  | APIError (fields : ScriberErrorData)
  | APIConnectionError (message : ConnErrMsg)

/-- A Python exception: either one of the scriber exception classes, or a raw
exception of some other class (name and message). -/
inductive PyExc where
  | scriber (e : ScriberExc)
  | raw (excName detail : String)

/-- An HTTP request as handed to `HTTPClient.request` (src/scriber/api.py
line 67): method, url, headers, and the JSON document whose `json.dumps`
serialization is the `post_data` argument. -/
structure Request where
  method : String
  url : String
  headers : List (String × String)
  post_data : Json

/-- src/scriber/api.py line 7. -/
def SCRIBER_URL : String := "https://scriber.io/api/"

/-- src/scriber/api.py line 8. -/
def PLATFORM : String := "Web"

/-- src/scriber/api.py line 9: `"scriberpy-{0}".format(scriber.__version__)`.
The package version string comes from `scriber/__init__.py`, which is not
under src/, so it is passed in as the parameter `version`. -/
def SDK_VERSION (version : String) : String := "scriberpy-" ++ version

/-- src/scriber/api.py lines 26-28: the client object holding the
credentials. -/
structure Scriber where
  api_key : String
  app_id : String

/-- src/scriber/api.py lines 53-60: the `args` dict of `record_events`, in
source insertion order. -/
def recordEventsArgs (c : Scriber) (version user_id : String)
    (events : List Json) : List (String × Json) :=
  [("user_id", Json.str user_id),
   ("api_key", Json.str c.api_key),
   ("app_id", Json.str c.app_id),
   ("platform", Json.str PLATFORM),
   ("sdk_version", Json.str (SDK_VERSION version)),
   ("messages", Json.arr events)]

/-- src/scriber/api.py lines 61-64: the `headers` dict of `record_events`. -/
def reqHeaders : List (String × String) :=
  [("Content-type", "application/json"),
   ("Accept", "application/json")]

/-- src/scriber/api.py lines 35-42: the event dict built by `record_event`;
`event_time` is inserted only when `timestamp is not None`. -/
def recordEventEvent (label : String) (timestamp : Option Json) :
    List (String × Json) :=
  let event := [("event_type", Json.str "record_event"),
                ("event_info", Json.obj [("label", Json.str label)])]
  match timestamp with
  | none => event
  | some t => event ++ [("event_time", t)]

/-- Availability of the optional HTTP libraries probed at import time by
src/scriber/http_client.py lines 36-74.  `requests_version` is the parse of
`requests.__version__` as a major-minor-patch triple; `none` means the parse
of lines 53-54 raised (an unconventional version string). -/
structure PyEnv where
  urlfetch_available : Bool
  requests_available : Bool
  requests_version : Option (Nat × Nat × Nat)
  pycurl_available : Bool

/-- The four transport classes of src/scriber/http_client.py. -/
inductive Impl where
  | UrlFetchClient
  | RequestsClient
  | PycurlClient
  | Urllib2Client

/-- The two warnings the selection machinery can emit: the stderr warning of
http_client.py lines 60-68 (requests too old) and the `warnings.warn` of
lines 86-91 (urllib2 cannot verify certificates). -/
inductive SelWarning where
  | requestsTooOld
  | urllib2NoCertVerification

/-- Python lexicographic comparison of version triples, as in
`(major, minor, patch) < (0, 8, 8)` (http_client.py line 59). -/
def versionLt (v w : Nat × Nat × Nat) : Bool :=
  v.1 < w.1 || (v.1 == w.1 && (v.2.1 < w.2.1 || (v.2.1 == w.2.1 && v.2.2 < w.2.2)))

/-- src/scriber/http_client.py lines 46-69, the import-time probe of the
`requests` module: returns whether the `requests` global is still set after
the probe, and the warnings printed.  An unparsable version is kept (lines
55-57: "probably some new-fangled version, so it should support verify");
a parsed version below 0.8.8 is dropped with a warning (lines 59-69). -/
def probeRequests (env : PyEnv) : Bool × List SelWarning :=
  if env.requests_available then
    match env.requests_version with
    | none => (true, [])
    | some v =>
      if versionLt v (0, 8, 8) then (false, [SelWarning.requestsTooOld])
      else (true, [])
  else (false, [])

/-- src/scriber/http_client.py lines 77-93: pick the transport class from the
probed module globals, warning when falling back to urllib2. -/
def new_default_http_client (env : PyEnv) : Impl × List SelWarning :=
  if env.urlfetch_available then (Impl.UrlFetchClient, [])
  else if (probeRequests env).1 then (Impl.RequestsClient, [])
  else if env.pycurl_available then (Impl.PycurlClient, [])
  else (Impl.Urllib2Client, [SelWarning.urllib2NoCertVerification])

/-- The full observable behaviour of transport selection in a given
environment: the class chosen by `new_default_http_client` together with all
warnings emitted (import-time probe warnings first, then selection-time
warnings). -/
def defaultClientSelection (env : PyEnv) : Impl × List SelWarning :=
  ((new_default_http_client env).1,
   (probeRequests env).2 ++ (new_default_http_client env).2)

/-- The result of one `record_events` call, with the transport interaction
made observable: `requests` lists every request handed to the transport,
`clientUsed` is the identity (allocation id, class) of the HTTP client
instance the call constructed and used, and `nextId` is the allocator state
afterwards (each Python object construction yields a fresh identity). -/
structure RunResult where
  result : Except PyExc Unit
  requests : List Request
  clientUsed : Nat × Impl
  nextId : Nat

/-- src/scriber/api.py lines 45-69, `Scriber.record_events`: build the args
envelope, serialize it, construct a client with `new_default_http_client()`
(line 66), issue one POST (line 67), and raise `APIError` on a status code
other than 200 (lines 68-69).  `transport` is the network behaviour of the
constructed client: what its `request` method returns or raises for a given
request.  No validation of `user_id` or `events` is performed. -/
def record_events (c : Scriber) (version : String) (env : PyEnv)
    (transport : Request → Except PyExc (String × Int))
    (user_id : String) (events : List Json) (nextId : Nat) : RunResult :=
  let args := recordEventsArgs c version user_id events
  let req : Request := ⟨"POST", SCRIBER_URL, reqHeaders, Json.obj args⟩
  let result : Except PyExc Unit :=
    match transport req with
    | Except.error e => Except.error e
    | Except.ok (_content, code) =>
      if code ≠ 200 then
        Except.error (PyExc.scriber (ScriberExc.APIError
          ⟨some "There was a problem creating the data", none, none, none⟩))
      else Except.ok ()
  ⟨result, [req], (nextId, (new_default_http_client env).1), nextId + 1⟩

/-- src/scriber/api.py lines 30-43, `Scriber.record_event`: build the single
event and forward to `record_events` with a one-element list. -/
def record_event (c : Scriber) (version : String) (env : PyEnv)
    (transport : Request → Except PyExc (String × Int))
    (user_id label : String) (timestamp : Option Json) (nextId : Nat) :
    RunResult :=
  record_events c version env transport user_id
    [Json.obj (recordEventEvent label timestamp)] nextId

/-- The observable outcome of the try-block of `RequestsClient.request`
(src/scriber/http_client.py lines 118-139): either the response was fetched
and fully read (content and status code), or an exception was raised — a
`TypeError` out of `requests.request` (handled at lines 126-133), a
`requests.exceptions.RequestException`, or any other exception class. -/
inductive RequestsOutcome where
  | success (content : String) (status_code : Int)
  | typeError (detail : String)
  | requestException (excName detail : String)
  | otherException (excName detail : String)

/-- src/scriber/http_client.py lines 146-163, `RequestsClient.
_handle_request_error`: a `RequestException` and every other exception class
get distinct message templates, but both are raised as
`APIConnectionError`. -/
def RequestsClient.handle_request_error (excName detail : String)
    (isRequestException : Bool) : PyExc :=
  if isRequestException then
    PyExc.scriber (ScriberExc.APIConnectionError
      (ConnErrMsg.requestsRequestException excName detail))
  else
    PyExc.scriber (ScriberExc.APIConnectionError
      (ConnErrMsg.requestsOther excName detail))

/-- src/scriber/http_client.py lines 109-144, `RequestsClient.request`.  A
`TypeError` from `requests.request` is re-raised with a hint message (lines
126-133) and then caught by the outer `except Exception` handler (line 140),
where it is not a `RequestException`, so it takes the generic branch of
`_handle_request_error`.  The `verify` keyword computation (lines 112-116)
does not affect the returned value and is modelled by `requestsVerifyArg`
below. -/
def RequestsClient.request (o : RequestsOutcome) : Except PyExc (String × Int) :=
  match o with
  | RequestsOutcome.success content status_code => Except.ok (content, status_code)
  | RequestsOutcome.typeError detail =>
    Except.error (RequestsClient.handle_request_error "TypeError" detail false)
  | RequestsOutcome.requestException excName detail =>
    Except.error (RequestsClient.handle_request_error excName detail true)
  | RequestsOutcome.otherException excName detail =>
    Except.error (RequestsClient.handle_request_error excName detail false)

/-- src/scriber/http_client.py lines 112-116: the `verify` keyword passed to
`requests.request` — the bundled CA certificate path when verification is
on, the literal `False` when it is off. -/
def requestsVerifyArg (verify_ssl_certs : Bool) : Option String :=
  if verify_ssl_certs then some "data/ca-certificates.crt" else none

/-- The observable outcome of `urlfetch.fetch` (src/scriber/http_client.py
lines 171-183): a response, or one of the `urlfetch.Error` subclasses the
handler at lines 189-206 distinguishes. -/
inductive UrlfetchOutcome where
  | success (content : String) (status_code : Int)
  | invalidURLError (detail : String)
  | downloadError (detail : String)
  | responseTooLargeError (detail : String)
  | otherUrlfetchError (detail : String)

/-- src/scriber/http_client.py lines 169-206, `UrlFetchClient.request` with
its `_handle_request_error`: each `urlfetch.Error` subclass gets its own
message, and every one is raised as `APIConnectionError`. -/
def UrlFetchClient.request (url : String) (o : UrlfetchOutcome) :
    Except PyExc (String × Int) :=
  match o with
  | UrlfetchOutcome.success content status_code => Except.ok (content, status_code)
  | UrlfetchOutcome.invalidURLError detail =>
    Except.error (PyExc.scriber (ScriberExc.APIConnectionError
      (ConnErrMsg.urlfetchInvalidURL url detail)))
  | UrlfetchOutcome.downloadError detail =>
    Except.error (PyExc.scriber (ScriberExc.APIConnectionError
      (ConnErrMsg.urlfetchDownload detail)))
  | UrlfetchOutcome.responseTooLargeError detail =>
    Except.error (PyExc.scriber (ScriberExc.APIConnectionError
      (ConnErrMsg.urlfetchResponseTooLarge detail)))
  | UrlfetchOutcome.otherUrlfetchError detail =>
    Except.error (PyExc.scriber (ScriberExc.APIConnectionError
      (ConnErrMsg.urlfetchOther detail)))

/-- The pycurl error codes distinguished by `PycurlClient.
_handle_request_error` (src/scriber/http_client.py lines 248-264). -/
inductive PycurlErrno where
  | couldntConnect
  | couldntResolveHost
  | operationTimedOut
  | sslCacert
  | sslPeerCertificate
  | other (code : Int)

/-- The observable outcome of `curl.perform()` (src/scriber/http_client.py
line 240): completion (with the bytes written to the buffer and the response
code reported by `curl.getinfo`), or a `pycurl.error` carrying an error code
and message. -/
inductive PycurlOutcome where
  | success (rbody : String) (rcode : Int)
  | curlError (errno : PycurlErrno) (errstr : String)

/-- The curl options set by `PycurlClient.request`
(src/scriber/http_client.py lines 216-237), in the order the source sets
them.  `writefunction` stands for the buffer hookup of line 227. -/
inductive CurlOpt where
  | httpget (v : Nat)
  | post (v : Nat)
  | postfields (data : Option String)
  | customrequest (m : String)
  | url (u : String)
  | writefunction
  | nosignal (v : Nat)
  | connecttimeout (secs : Nat)
  | timeout (secs : Nat)
  | httpheader (hs : List String)
  | cainfo (path : String)
  | sslVerifyhost (v : Bool)
deriving DecidableEq

/-- src/scriber/http_client.py lines 216-237: the option list
`PycurlClient.request` configures before calling `perform`.  The `post_data`
body is attached (POSTFIELDS) only in the `method == 'post'` branch. -/
def PycurlClient.setopts (verify_ssl_certs : Bool) (method url : String)
    (headers : List (String × String)) (post_data : Option String) :
    List CurlOpt :=
  (if method = "get" then [CurlOpt.httpget 1]
   else if method = "post" then
     [CurlOpt.post 1, CurlOpt.postfields post_data]
   else [CurlOpt.customrequest method.toUpper])
  ++ [CurlOpt.url url, CurlOpt.writefunction, CurlOpt.nosignal 1,
      CurlOpt.connecttimeout 30, CurlOpt.timeout 80,
      CurlOpt.httpheader (headers.map (fun kv => kv.1 ++ ": " ++ kv.2))]
  ++ (if verify_ssl_certs then [CurlOpt.cainfo "data/ca-certificates.crt"]
      else [CurlOpt.sslVerifyhost false])

/-- src/scriber/http_client.py lines 247-267, `PycurlClient.
_handle_request_error`: connection-class error codes, SSL-certificate error
codes, and everything else get three distinct messages, all raised as
`APIConnectionError`. -/
def PycurlClient.handle_request_error (errno : PycurlErrno) (errstr : String) :
    PyExc :=
  match errno with
  | PycurlErrno.couldntConnect =>
    PyExc.scriber (ScriberExc.APIConnectionError (ConnErrMsg.pycurlCouldNotConnect errstr))
  | PycurlErrno.couldntResolveHost =>
    PyExc.scriber (ScriberExc.APIConnectionError (ConnErrMsg.pycurlCouldNotConnect errstr))
  | PycurlErrno.operationTimedOut =>
    PyExc.scriber (ScriberExc.APIConnectionError (ConnErrMsg.pycurlCouldNotConnect errstr))
  | PycurlErrno.sslCacert =>
    PyExc.scriber (ScriberExc.APIConnectionError (ConnErrMsg.pycurlSslFailed errstr))
  | PycurlErrno.sslPeerCertificate =>
    PyExc.scriber (ScriberExc.APIConnectionError (ConnErrMsg.pycurlSslFailed errstr))
  | PycurlErrno.other _ =>
    PyExc.scriber (ScriberExc.APIConnectionError (ConnErrMsg.pycurlOther errstr))

/-- src/scriber/http_client.py lines 212-245, `PycurlClient.request`: the
configured option list together with the result of performing the request —
the buffer contents and response code on completion, a normalized connection
error when `perform` raises `pycurl.error`. -/
def PycurlClient.request (verify_ssl_certs : Bool) (method url : String)
    (headers : List (String × String)) (post_data : Option String)
    (o : PycurlOutcome) : Except PyExc (String × Int) × List CurlOpt :=
  (match o with
   | PycurlOutcome.success rbody rcode => Except.ok (rbody, rcode)
   | PycurlOutcome.curlError errno errstr =>
     Except.error (PycurlClient.handle_request_error errno errstr),
   PycurlClient.setopts verify_ssl_certs method url headers post_data)

/-- The observable outcome of `urllib2.urlopen` plus the response read
(src/scriber/http_client.py lines 286-293): a readable response, an
`HTTPError` (which itself carries a status code and a readable body), a
`URLError`, or a `ValueError`. -/
inductive UrlopenOutcome where
  | success (rbody : String) (rcode : Int)
  | httpError (code : Int) (body : String)
  | urlError (detail : String)
  | valueError (detail : String)

/-- src/scriber/http_client.py lines 276-300, `Urllib2Client.request`: an
`HTTPError` is answered like a normal response, with the code and body taken
from the error object; `URLError` and `ValueError` are normalized to
`APIConnectionError` by `_handle_request_error` (lines 296-300). -/
def Urllib2Client.request (method : String) (post_data : Option String)
    (o : UrlopenOutcome) : Except PyExc (String × Int) :=
  match o with
  | UrlopenOutcome.success rbody rcode => Except.ok (rbody, rcode)
  | UrlopenOutcome.httpError code body => Except.ok (body, code)
  | UrlopenOutcome.urlError detail =>
    Except.error (PyExc.scriber (ScriberExc.APIConnectionError
      (ConnErrMsg.urllib2Unexpected detail)))
  | UrlopenOutcome.valueError detail =>
    Except.error (PyExc.scriber (ScriberExc.APIConnectionError
      (ConnErrMsg.urllib2Unexpected detail)))

/-- src/scriber/http_client.py lines 282-283: the effective HTTP method sent
by `Urllib2Client` — `get_method` is overridden to the uppercased method
string exactly when the method is neither of the lowercase literals. -/
def Urllib2Client.effectiveMethodOverride (method : String) : Option String :=
  if method = "get" ∨ method = "post" then none else some method.toUpper

/-- A transport result is normalized when it is either a (body, status) pair
or a raised `APIConnectionError` — never a raw exception and never another
scriber exception class. -/
def normalizedResult (r : Except PyExc (String × Int)) : Prop :=
  (∃ p, r = Except.ok p) ∨
  (∃ m, r = Except.error (PyExc.scriber (ScriberExc.APIConnectionError m)))

/-- The specification wording (section 4.2, step 2) of a requests version
"known to support required options (certificate verification control)":
0.8.8 or newer; an unconventional version string that does not parse is
assumed new enough. -/
def specVersionSupportsVerify (v : Option (Nat × Nat × Nat)) : Bool :=
  match v with
  | none => true
  | some v => !versionLt v (0, 8, 8)

/-- The specification wording of the warning emitted when the requests
library is present but too old, and therefore skipped. -/
def specRequestsSkipWarning (env : PyEnv) : List SelWarning :=
  if env.requests_available && !specVersionSupportsVerify env.requests_version
  then [SelWarning.requestsTooOld] else []

/-- Transport selection as the specification words it (section 4.2): the
managed-platform fetch capability if detected, else the third-party requests
library if present at a supporting version (skipped with a warning
otherwise), else pycurl if present, else the urllib2 baseline together with
a warning about unverified server certificates. -/
def specTransportChoice (env : PyEnv) : Impl × List SelWarning :=
  if env.urlfetch_available then
    (Impl.UrlFetchClient, specRequestsSkipWarning env)
  else if env.requests_available && specVersionSupportsVerify env.requests_version then
    (Impl.RequestsClient, specRequestsSkipWarning env)
  else if env.pycurl_available then
    (Impl.PycurlClient, specRequestsSkipWarning env)
  else
    (Impl.Urllib2Client,
     specRequestsSkipWarning env ++ [SelWarning.urllib2NoCertVerification])

lemma probeRequests_fst (env : PyEnv) :
    (probeRequests env).1
      = (env.requests_available && specVersionSupportsVerify env.requests_version) := by
  rcases env with ⟨u, r, v, p⟩
  cases r <;> rcases v with _ | vv <;>
    simp [probeRequests, specVersionSupportsVerify] <;>
    cases hv : versionLt vv (0, 8, 8) <;> simp [hv]

lemma probeRequests_snd (env : PyEnv) :
    (probeRequests env).2 = specRequestsSkipWarning env := by
  rcases env with ⟨u, r, v, p⟩
  cases r <;> rcases v with _ | vv <;>
    simp [probeRequests, specRequestsSkipWarning, specVersionSupportsVerify] <;>
    cases hv : versionLt vv (0, 8, 8) <;> simp [hv]

/-- A concrete client used for concrete evaluations. -/
def cexScriber : Scriber := ⟨"key-1", "app-1"⟩

/-- A concrete environment with none of the optional libraries installed. -/
def cexEnv : PyEnv := ⟨false, false, none, false⟩

/-- A stub transport that answers every request with status 200. -/
def okTransport : Request → Except PyExc (String × Int) :=
  fun _ => Except.ok ("", 200)

/-- A stub transport that answers every request with status 404 and a fixed
body. -/
def cexTransport404 : Request → Except PyExc (String × Int) :=
  fun _ => Except.ok ("server-response-body", 404)

/-- A concrete single-event batch. -/
def cexEvents : List Json := [Json.obj (recordEventEvent "x" none)]

/-- Claim C1, counterexample: calling `record_events` with the empty event
sequence is not rejected — exactly one request is handed to the transport,
contradicting "no request is sent through the transport". -/
theorem record_events_empty_sends_request_cex :
    (record_events cexScriber "0.1.0" cexEnv okTransport "user-1" [] 0).requests.length
      = 1 := rfl

/-- Claim C1 (amended): `record_events` performs no validation of the event
sequence; given the empty sequence it still sends exactly one request
through the transport, whose body has an empty `messages` array. -/
theorem record_events_empty_not_rejected (c : Scriber) (version user_id : String)
    (env : PyEnv) (transport : Request → Except PyExc (String × Int))
    (nextId : Nat) :
    (record_events c version env transport user_id [] nextId).requests
      = [⟨"POST", SCRIBER_URL, reqHeaders,
          Json.obj (recordEventsArgs c version user_id [])⟩]
    ∧ List.lookup "messages" (recordEventsArgs c version user_id [])
      = some (Json.arr []) :=
  ⟨rfl, rfl⟩

/-- Claim C2: for a transport answering (body, code), `record_events` returns
without raising exactly when the code is the literal 200, and otherwise
raises `APIError` whose message is exactly "There was a problem creating the
data". -/
theorem record_events_status_code_dichotomy (c : Scriber)
    (version user_id : String) (events : List Json) (env : PyEnv)
    (nextId : Nat) (body : String) (code : Int) :
    (record_events c version env (fun _ => Except.ok (body, code))
        user_id events nextId).result
      = if code = 200 then Except.ok ()
        else Except.error (PyExc.scriber (ScriberExc.APIError
          ⟨some "There was a problem creating the data", none, none, none⟩)) := by
  by_cases h : code = 200 <;> simp [record_events, h]

/-- Claim C3, counterexample: with a transport answering body
"server-response-body" and status 404, the `APIError` raised by
`record_events` has `http_body = None` and `http_status = None` — it does
not carry the body and code returned by the transport. -/
theorem apiError_fields_not_populated_cex :
    (record_events cexScriber "0.1.0" cexEnv cexTransport404 "user-1"
        cexEvents 0).result
      = Except.error (PyExc.scriber (ScriberExc.APIError
          ⟨some "There was a problem creating the data", none, none, none⟩))
    ∧ (none : Option String) ≠ some "server-response-body"
    ∧ (none : Option Int) ≠ some 404 := by
  refine ⟨rfl, ?_, ?_⟩ <;> simp

/-- Claim C3 (amended): on every non-200 status code, the `APIError` raised
by `record_events` carries only its message; its `http_body`, `http_status`
and `json_body` fields are all `None` regardless of the body and code the
transport returned. -/
theorem apiError_carries_message_only (c : Scriber) (version user_id : String)
    (events : List Json) (env : PyEnv) (nextId : Nat) (body : String)
    (code : Int) (h : code ≠ 200) :
    (record_events c version env (fun _ => Except.ok (body, code))
        user_id events nextId).result
      = Except.error (PyExc.scriber (ScriberExc.APIError
          ⟨some "There was a problem creating the data", none, none, none⟩)) := by
  simp [record_events, h]

/-- Witness for the amended claim C3 at body "b", status 500. -/
theorem apiError_carries_message_only_witness :
    (record_events cexScriber "0.1.0" cexEnv (fun _ => Except.ok ("b", 500))
        "user-1" [] 0).result
      = Except.error (PyExc.scriber (ScriberExc.APIError
          ⟨some "There was a problem creating the data", none, none, none⟩)) :=
  apiError_carries_message_only cexScriber "0.1.0" "user-1" [] cexEnv 0 "b" 500
    (by decide)

/-- Claim C4: for every non-empty event sequence and credentials, the request
body document produced by `record_events` has a `messages` key holding
exactly the given events in the same order, and its keys are exactly
user_id, api_key, app_id, platform (the constant "Web") and sdk_version
(the "scriberpy-version" string), followed by messages. -/
theorem record_events_body_roundtrip (c : Scriber) (version user_id : String)
    (events : List Json) (env : PyEnv)
    (transport : Request → Except PyExc (String × Int)) (nextId : Nat)
    (h : events ≠ []) :
    (record_events c version env transport user_id events nextId).requests
      = [⟨"POST", SCRIBER_URL, reqHeaders,
          Json.obj (recordEventsArgs c version user_id events)⟩]
    ∧ List.lookup "messages" (recordEventsArgs c version user_id events)
      = some (Json.arr events)
    ∧ (recordEventsArgs c version user_id events).map Prod.fst
      = ["user_id", "api_key", "app_id", "platform", "sdk_version", "messages"]
    ∧ List.lookup "platform" (recordEventsArgs c version user_id events)
      = some (Json.str "Web")
    ∧ List.lookup "sdk_version" (recordEventsArgs c version user_id events)
      = some (Json.str ("scriberpy-" ++ version)) :=
  ⟨rfl, rfl, rfl, rfl, rfl⟩

/-- Witness for claim C4 at a concrete one-event batch. -/
theorem record_events_body_roundtrip_witness :
    List.lookup "messages" (recordEventsArgs cexScriber "0.1.0" "user-1" cexEvents)
      = some (Json.arr cexEvents) :=
  (record_events_body_roundtrip cexScriber "0.1.0" "user-1" cexEvents cexEnv
      okTransport 0 (by simp [cexEvents])).2.1

/-- Claim C5: `record_event` forwards to `record_events` with a single-event
batch whose message has event_type "record_event" and event_info equal to
the one-key label object; the event_time key is present exactly when a
timestamp is supplied, and then holds the given value. -/
theorem record_event_single_message_shape (c : Scriber)
    (version user_id label : String) (timestamp : Option Json) (env : PyEnv)
    (transport : Request → Except PyExc (String × Int)) (nextId : Nat) :
    record_event c version env transport user_id label timestamp nextId
      = record_events c version env transport user_id
          [Json.obj (recordEventEvent label timestamp)] nextId
    ∧ List.lookup "event_type" (recordEventEvent label timestamp)
      = some (Json.str "record_event")
    ∧ List.lookup "event_info" (recordEventEvent label timestamp)
      = some (Json.obj [("label", Json.str label)])
    ∧ List.lookup "event_time" (recordEventEvent label timestamp) = timestamp
    ∧ (recordEventEvent label timestamp).map Prod.fst
      = (match timestamp with
         | none => ["event_type", "event_info"]
         | some _ => ["event_type", "event_info", "event_time"]) := by
  cases timestamp <;> exact ⟨rfl, rfl, rfl, rfl, rfl⟩

/-- Claim C6: in every environment, the transport class chosen by
`new_default_http_client`, together with the warnings emitted, is exactly
the fixed priority order the specification describes: urlfetch if available,
else requests if present at a version supporting certificate verification
(skipped with a warning otherwise), else pycurl, else urllib2 with the
unverified-certificates warning. -/
theorem new_default_http_client_priority_refines_spec (env : PyEnv) :
    defaultClientSelection env = specTransportChoice env := by
  have h1 := probeRequests_fst env
  have h2 := probeRequests_snd env
  simp only [defaultClientSelection, new_default_http_client,
    specTransportChoice, h1, h2]
  split_ifs <;> simp

/-- Claim C7: each of the four transport implementations either returns the
(body, status) pair or raises the normalized `APIConnectionError`; no
underlying exception reaches the caller raw. -/
theorem transport_request_normalized (o1 : RequestsOutcome) (url1 : String)
    (o2 : UrlfetchOutcome) (verify : Bool) (method url2 : String)
    (headers : List (String × String)) (post_data : Option String)
    (o3 : PycurlOutcome) (method4 : String) (post_data4 : Option String)
    (o4 : UrlopenOutcome) :
    normalizedResult (RequestsClient.request o1)
    ∧ normalizedResult (UrlFetchClient.request url1 o2)
    ∧ normalizedResult
        (PycurlClient.request verify method url2 headers post_data o3).1
    ∧ normalizedResult (Urllib2Client.request method4 post_data4 o4) := by
  refine ⟨?_, ?_, ?_, ?_⟩
  · cases o1 with
    | success content status_code => exact Or.inl ⟨(content, status_code), rfl⟩
    | typeError detail => exact Or.inr ⟨_, rfl⟩
    | requestException excName detail => exact Or.inr ⟨_, rfl⟩
    | otherException excName detail => exact Or.inr ⟨_, rfl⟩
  · cases o2 with
    | success content status_code => exact Or.inl ⟨(content, status_code), rfl⟩
    | invalidURLError detail => exact Or.inr ⟨_, rfl⟩
    | downloadError detail => exact Or.inr ⟨_, rfl⟩
    | responseTooLargeError detail => exact Or.inr ⟨_, rfl⟩
    | otherUrlfetchError detail => exact Or.inr ⟨_, rfl⟩
  · cases o3 with
    | success rbody rcode => exact Or.inl ⟨(rbody, rcode), rfl⟩
    | curlError errno errstr => cases errno <;> exact Or.inr ⟨_, rfl⟩
  · cases o4 with
    | success rbody rcode => exact Or.inl ⟨(rbody, rcode), rfl⟩
    | httpError code body => exact Or.inl ⟨(body, code), rfl⟩
    | urlError detail => exact Or.inr ⟨_, rfl⟩
    | valueError detail => exact Or.inr ⟨_, rfl⟩

/-- Claim C8: in the urllib2 fallback transport, a protocol-level
`HTTPError` is answered as a normal (body, code) result taken from the error
response itself, while `URLError` and `ValueError` raise the normalized
`APIConnectionError`. -/
theorem urllib2_http_error_is_not_transport_failure (method : String)
    (post_data : Option String) (code : Int) (body detail : String) :
    Urllib2Client.request method post_data (UrlopenOutcome.httpError code body)
      = Except.ok (body, code)
    ∧ Urllib2Client.request method post_data (UrlopenOutcome.urlError detail)
      = Except.error (PyExc.scriber (ScriberExc.APIConnectionError
          (ConnErrMsg.urllib2Unexpected detail)))
    ∧ Urllib2Client.request method post_data (UrlopenOutcome.valueError detail)
      = Except.error (PyExc.scriber (ScriberExc.APIConnectionError
          (ConnErrMsg.urllib2Unexpected detail))) :=
  ⟨rfl, rfl, rfl⟩

/-- Claim C9, counterexample: two consecutive `record_events` calls on the
same client construct and use two different transport instances (allocation
ids 0 and 1), contradicting "each call uses the same transport instance
chosen at construction". -/
theorem record_events_fresh_client_cex :
    (record_events cexScriber "0.1.0" cexEnv okTransport "user-1" cexEvents 0).clientUsed.1
      = 0
    ∧ (record_events cexScriber "0.1.0" cexEnv okTransport "user-1" cexEvents
        ((record_events cexScriber "0.1.0" cexEnv okTransport "user-1"
            cexEvents 0).nextId)).clientUsed.1
      = 1
    ∧ (0 : Nat) ≠ 1 :=
  ⟨rfl, rfl, by decide⟩

/-- Claim C9 (amended): `record_events` calls `new_default_http_client`
inside every invocation, so each call constructs (and uses) a fresh
transport instance, re-evaluating the selection per request; the selection
is deterministic in a fixed environment, so every call gets the same
transport class. -/
theorem record_events_constructs_client_per_call (c : Scriber)
    (version user_id : String) (events : List Json) (env : PyEnv)
    (transport : Request → Except PyExc (String × Int)) (nextId : Nat) :
    (record_events c version env transport user_id events nextId).clientUsed
      = (nextId, (new_default_http_client env).1)
    ∧ (record_events c version env transport user_id events nextId).nextId
      = nextId + 1 :=
  ⟨rfl, rfl⟩

/-- True when some configured option is CUSTOMREQUEST. -/
def hasCustomRequest (opts : List CurlOpt) : Bool :=
  opts.any fun o =>
    match o with
    | CurlOpt.customrequest _ => true
    | _ => false

/-- True when some configured option is POSTFIELDS, i.e. a request body is
attached. -/
def hasPostFields (opts : List CurlOpt) : Bool :=
  opts.any fun o =>
    match o with
    | CurlOpt.postfields _ => true
    | _ => false

/-- Claim C10, counterexample: for the method string "get" — which is also
not the lowercase "post" — `PycurlClient` issues the request via HTTPGET,
not via CUSTOMREQUEST, contradicting "for any other method string the
request is issued via CUSTOMREQUEST". -/
theorem pycurl_get_no_customrequest_cex :
    hasCustomRequest
        (PycurlClient.setopts true "get" SCRIBER_URL [] (some "payload"))
      = false := rfl

/-- Claim C10 (amended): `PycurlClient.request` attaches the post_data body
only in the branch for the exact lowercase method "post"; for any method
other than "get" and "post" — including the uppercase "POST" that
`record_events` passes — the request is issued via CUSTOMREQUEST with no
body attached, so under the pycurl transport the serialized JSON payload is
silently dropped. -/
theorem pycurl_post_data_only_lowercase_post (verify : Bool) (url : String)
    (headers : List (String × String)) (post_data : Option String)
    (method : String) (c : Scriber) (version user_id : String)
    (events : List Json) (env : PyEnv)
    (transport : Request → Except PyExc (String × Int)) (nextId : Nat)
    (hget : method ≠ "get") (hpost : method ≠ "post") :
    hasPostFields (PycurlClient.setopts verify method url headers post_data)
      = false
    ∧ CurlOpt.customrequest method.toUpper
        ∈ PycurlClient.setopts verify method url headers post_data
    ∧ hasPostFields (PycurlClient.setopts verify "post" url headers post_data)
      = true
    ∧ (record_events c version env transport user_id events nextId).requests.map
        Request.method
      = ["POST"] := by
  cases verify <;>
    exact ⟨by simp [PycurlClient.setopts, hget, hpost, hasPostFields],
           by simp [PycurlClient.setopts, hget, hpost],
           rfl, rfl⟩

/-- Witness for the amended claim C10 at the method "POST". -/
theorem pycurl_post_data_only_lowercase_post_witness :
    hasPostFields (PycurlClient.setopts true "POST" SCRIBER_URL [] (some "payload"))
      = false
    ∧ CurlOpt.customrequest ("POST".toUpper)
        ∈ PycurlClient.setopts true "POST" SCRIBER_URL [] (some "payload") :=
  ⟨(pycurl_post_data_only_lowercase_post true SCRIBER_URL [] (some "payload")
      "POST" cexScriber "0.1.0" "user-1" [] cexEnv okTransport 0
      (by decide) (by decide)).1,
   (pycurl_post_data_only_lowercase_post true SCRIBER_URL [] (some "payload")
      "POST" cexScriber "0.1.0" "user-1" [] cexEnv okTransport 0
      (by decide) (by decide)).2.1⟩
